import Mathlib

/-!
Shallow embedding of the concrete-module-type deduplication core found in
torch/csrc/jit/script/concrete_module_type.h and concrete_module_type.cpp.

Opaque foreign handles (py::object pointers, TypePtr pointers to JIT class
types) are represented by natural-number identity tags; pointer identity
(py::object::is, TypePtr ==) becomes equality of those tags.  The externally
defined, possibly failing Python rich comparison used for constants is
represented by an oracle function returning Option Bool, where none models a
raised Python exception.  Fallible operations return Except or Option.
-/

namespace PytorchCMT

/-- py::object identity handle (pointer identity). -/
abbrev PyObjId := Nat

/-- The error carried by py::error_already_set (a raised Python exception). -/
inductive PyError where
  | raised
deriving DecidableEq, Repr

/-- IterableModuleKind from concrete_module_type.h. -/
inductive IterableModuleKind where
  | NONE
  | LIST
  | DICT
deriving DecidableEq, Repr

/-- The opaque JIT Type abstraction (c10 TypePtr) as consumed by the source:
it offers structural equality, a function-type discriminator (cast to
FunctionType), and an interface-module discriminator.  Distinct identity
tags stand for structurally distinct opaque types. -/
inductive JitType where
  | function (fid : Nat)
  | interface (iid : Nat) (isModule : Bool)
  | other (tid : Nat)
deriving DecidableEq, Repr

/-- type->cast<FunctionType>() != nullptr. -/
def JitType.isFunctionType : JitType → Bool
  | JitType.function _ => true
  | _ => false

/-- ConcreteModuleTypeData::Constant: wraps a py::object value. -/
structure Constant where
  v : PyObjId
deriving DecidableEq, Repr

/-- ConcreteModuleTypeData::FunctionAttribute: a FunctionTypePtr plus the
Python function object handle. -/
structure FunctionAttribute where
  function : Nat
  pyFunction : PyObjId
deriving DecidableEq, Repr

/-- ConcreteModuleTypeData::Attribute: a TypePtr plus the isParam flag. -/
structure Attribute where
  type : JitType
  isParam : Bool
deriving DecidableEq, Repr

/-- The external Python runtime as consumed by the source: the possibly
failing rich comparison PyObject_RichCompareBool (none = raised exception),
and torch._jit_internal._qualified_name split as (namespace part, name part)
with "" meaning an empty prefix. -/
structure PyWorld where
  richCompareBool : PyObjId → PyObjId → Option Bool
  qualNameOf : PyObjId → String × String

mutual

/-- ConcreteModuleTypeData: the snapshot shared by RawConcreteModuleType and
ConcreteModuleType.  Maps (std::unordered_map) are association lists with
unique keys maintained by emplace. -/
inductive ConcreteModuleTypeData : Type where
  | mk
    (isPoisoned : Bool)
    (constants : List (String × Constant))
    (attributes : List (String × Attribute))
    (overloads : List (String × List String))
    (failedAttributes : List (String × String))
    (functionAttributes : List (String × FunctionAttribute))
    (modules : List ModuleInfo)
    (iterableModuleKind : IterableModuleKind)
    (pyClass : PyObjId)

/-- ConcreteModuleTypeData::ModuleInfo: a submodule entry holding a name, a
possibly null shared_ptr to a nested ConcreteModuleType, and a possibly null
interface TypePtr. -/
inductive ModuleInfo : Type where
  | mk (name : String) (meta : Option ConcreteModuleType) (type : Option JitType)

/-- ConcreteModuleType: the finalized type, pairing the frozen data with the
identity tag of the derived JIT class type (TypePtr pointer identity). -/
inductive ConcreteModuleType : Type where
  | mk (data : ConcreteModuleTypeData) (jitType : Nat)

end

def ConcreteModuleTypeData.isPoisoned : ConcreteModuleTypeData → Bool
  | ConcreteModuleTypeData.mk p _ _ _ _ _ _ _ _ => p

def ConcreteModuleTypeData.constants : ConcreteModuleTypeData → List (String × Constant)
  | ConcreteModuleTypeData.mk _ cs _ _ _ _ _ _ _ => cs

def ConcreteModuleTypeData.attributes : ConcreteModuleTypeData → List (String × Attribute)
  | ConcreteModuleTypeData.mk _ _ ats _ _ _ _ _ _ => ats

def ConcreteModuleTypeData.overloads : ConcreteModuleTypeData → List (String × List String)
  | ConcreteModuleTypeData.mk _ _ _ ovs _ _ _ _ _ => ovs

def ConcreteModuleTypeData.failedAttributes : ConcreteModuleTypeData → List (String × String)
  | ConcreteModuleTypeData.mk _ _ _ _ fls _ _ _ _ => fls

def ConcreteModuleTypeData.functionAttributes : ConcreteModuleTypeData → List (String × FunctionAttribute)
  | ConcreteModuleTypeData.mk _ _ _ _ _ fns _ _ _ => fns

def ConcreteModuleTypeData.modules : ConcreteModuleTypeData → List ModuleInfo
  | ConcreteModuleTypeData.mk _ _ _ _ _ _ mods _ _ => mods

def ConcreteModuleTypeData.iterableModuleKind : ConcreteModuleTypeData → IterableModuleKind
  | ConcreteModuleTypeData.mk _ _ _ _ _ _ _ ik _ => ik

def ConcreteModuleTypeData.pyClass : ConcreteModuleTypeData → PyObjId
  | ConcreteModuleTypeData.mk _ _ _ _ _ _ _ _ pc => pc

def ModuleInfo.name : ModuleInfo → String
  | ModuleInfo.mk n _ _ => n

def ModuleInfo.meta : ModuleInfo → Option ConcreteModuleType
  | ModuleInfo.mk _ m _ => m

def ModuleInfo.type : ModuleInfo → Option JitType
  | ModuleInfo.mk _ _ t => t

def ConcreteModuleType.data : ConcreteModuleType → ConcreteModuleTypeData
  | ConcreteModuleType.mk d _ => d

def ConcreteModuleType.jitType : ConcreteModuleType → Nat
  | ConcreteModuleType.mk _ j => j

/-! ### Association-list maps (std::unordered_map) -/

/-- unordered_map::find. -/
def lookupKey {α : Type} (m : List (String × α)) (k : String) : Option α :=
  match m with
  | [] => none
  | (k2, v) :: rest => if k2 = k then some v else lookupKey rest k

/-- unordered_map::count != 0. -/
def containsKey {α : Type} (m : List (String × α)) (k : String) : Bool :=
  (lookupKey m k).isSome

/-- unordered_map::emplace: inserts only when the key is absent; a later
insertion under an existing key is silently dropped. -/
def emplace {α : Type} (m : List (String × α)) (k : String) (v : α) : List (String × α) :=
  if containsKey m k then m else m ++ [(k, v)]

/-- unordered_map operator== with a pure mapped-value comparison: equal
sizes, and every (key, value) of the left map has a matching key on the
right whose mapped value compares equal. -/
def mapEqB {α : Type} (veq : α → α → Bool) (a b : List (String × α)) : Bool :=
  a.length == b.length &&
    a.all (fun kv =>
      match lookupKey b kv.1 with
      | some v2 => veq kv.2 v2
      | none => false)

/-- Attribute operator==: structural type equality plus the isParam flag. -/
def attrEqB (x y : Attribute) : Bool :=
  x.type == y.type && x.isParam == y.isParam

/-- FunctionAttribute operator==: pointer identity of the Python function
object only; the stored function type is deliberately ignored. -/
def funcAttrEqB (x y : FunctionAttribute) : Bool :=
  x.pyFunction == y.pyFunction

/-- vector<string> operator== (order-sensitive). -/
def overloadEqB (x y : List String) : Bool :=
  x == y

/-- Constant operator==: PyObject_RichCompareBool on the wrapped objects; a
rich-comparison failure raises py::error_already_set. -/
def constantEq (w : PyWorld) (a b : Constant) : Except PyError Bool :=
  match w.richCompareBool a.v b.v with
  | none => Except.error PyError.raised
  | some r => Except.ok r

/-- Element loop of the constants map comparison, left-map order. -/
def constantsMapEqGo (w : PyWorld) (a b : List (String × Constant)) : Except PyError Bool :=
  match a with
  | [] => Except.ok true
  | (k, v) :: rest =>
    match lookupKey b k with
    | none => Except.ok false
    | some v2 =>
      match constantEq w v v2 with
      | Except.error e => Except.error e
      | Except.ok r => if r then constantsMapEqGo w rest b else Except.ok false

/-- unordered_map<string, Constant> operator==: size check, then per-key
comparison through the possibly failing Python relation. -/
def constantsMapEq (w : PyWorld) (a b : List (String × Constant)) : Except PyError Bool :=
  if a.length = b.length then constantsMapEqGo w a b else Except.ok false

/-- The sort applied to a copy of modules_ before comparison: ordered by
entry name, as in the std::sort call with the name comparator. -/
def sortModules (ms : List ModuleInfo) : List ModuleInfo :=
  List.insertionSort (fun a b => a.name ≤ b.name) ms

theorem sortModules_perm (ms : List ModuleInfo) : List.Perm (sortModules ms) ms :=
  List.perm_insertionSort _ ms

theorem sizeOf_sortModules (ms : List ModuleInfo) : sizeOf (sortModules ms) = sizeOf ms :=
  (sortModules_perm ms).sizeOf_eq_sizeOf

theorem sizeOf_modules_lt (a : ConcreteModuleTypeData) : sizeOf a.modules < sizeOf a := by
  cases a
  simp [ConcreteModuleTypeData.modules]
  omega

theorem sizeOf_data_lt (x : ConcreteModuleType) : sizeOf x.data < sizeOf x := by
  cases x
  simp [ConcreteModuleType.data]
  omega

mutual

/-- operator==(ConcreteModuleTypeData, ConcreteModuleTypeData): poison,
then pyClass identity, iterableModuleKind, constants, attributes,
overloads, functionAttributes, and finally the name-sorted modules. -/
def dataEq (w : PyWorld) (a b : ConcreteModuleTypeData) : Except PyError Bool :=
  if a.isPoisoned || b.isPoisoned then Except.ok false
  else if !(a.pyClass == b.pyClass) then Except.ok false
  else if !(a.iterableModuleKind == b.iterableModuleKind) then Except.ok false
  else
    match constantsMapEq w a.constants b.constants with
    | Except.error e => Except.error e
    | Except.ok c =>
      if !c then Except.ok false
      else if !(mapEqB attrEqB a.attributes b.attributes) then Except.ok false
      else if !(mapEqB overloadEqB a.overloads b.overloads) then Except.ok false
      else if !(mapEqB funcAttrEqB a.functionAttributes b.functionAttributes) then Except.ok false
      else modulesEq w (sortModules a.modules) (sortModules b.modules)
termination_by (sizeOf a, 2)
decreasing_by
  apply Prod.Lex.left
  rw [sizeOf_sortModules]
  exact sizeOf_modules_lt a

/-- vector<ModuleInfo> operator==: equal sizes, then element-wise. -/
def modulesEq (w : PyWorld) (xs ys : List ModuleInfo) : Except PyError Bool :=
  if xs.length = ys.length then modulesEqGo w xs ys else Except.ok false
termination_by (sizeOf xs, 1)
decreasing_by
  apply Prod.Lex.right
  omega

/-- Element-wise loop of the vector<ModuleInfo> comparison. -/
def modulesEqGo (w : PyWorld) (xs ys : List ModuleInfo) : Except PyError Bool :=
  match xs, ys with
  | [], _ => Except.ok true
  | _ :: _, [] => Except.ok false
  | x :: xs2, y :: ys2 =>
    match moduleInfoEq w x y with
    | Except.error e => Except.error e
    | Except.ok r => if r then modulesEqGo w xs2 ys2 else Except.ok false
termination_by (sizeOf xs, 0)
decreasing_by
  all_goals apply Prod.Lex.left
  all_goals simp
  all_goals omega

/-- operator==(ModuleInfo, ModuleInfo) from concrete_module_type.cpp: when
both meta_ pointers are non-null, compare the nested concrete types; else
when both type_ pointers are non-null, compare the types structurally; else
unequal.  The name_ field is not consulted. -/
def moduleInfoEq (w : PyWorld) (x y : ModuleInfo) : Except PyError Bool :=
  match x, y with
  | ModuleInfo.mk _ (some mx) _, ModuleInfo.mk _ (some my) _ =>
    ConcreteModuleType.equals w mx my
  | x2, y2 =>
    match x2.type, y2.type with
    | some tx, some ty => Except.ok (tx == ty)
    | _, _ => Except.ok false
termination_by (sizeOf x, 3)
decreasing_by
  apply Prod.Lex.left
  simp
  omega

/-- ConcreteModuleType::equals: short-circuits to equal when both sides
hold the identical computed JIT class type object, else compares the data. -/
def ConcreteModuleType.equals (w : PyWorld) (x y : ConcreteModuleType) : Except PyError Bool :=
  if x.jitType == y.jitType then Except.ok true
  else dataEq w x.data y.data
termination_by (sizeOf x, 3)
decreasing_by
  apply Prod.Lex.left
  exact sizeOf_data_lt x

end

/-! ### Field updates on the shared data (mutation through the builder) -/

def ConcreteModuleTypeData.setPoisoned : ConcreteModuleTypeData → ConcreteModuleTypeData
  | ConcreteModuleTypeData.mk _ cs ats ovs fls fns mods ik pc =>
    ConcreteModuleTypeData.mk true cs ats ovs fls fns mods ik pc

def ConcreteModuleTypeData.setConstants (d : ConcreteModuleTypeData) (x : List (String × Constant)) : ConcreteModuleTypeData :=
  match d with
  | ConcreteModuleTypeData.mk p _ ats ovs fls fns mods ik pc =>
    ConcreteModuleTypeData.mk p x ats ovs fls fns mods ik pc

def ConcreteModuleTypeData.setAttributes (d : ConcreteModuleTypeData) (x : List (String × Attribute)) : ConcreteModuleTypeData :=
  match d with
  | ConcreteModuleTypeData.mk p cs _ ovs fls fns mods ik pc =>
    ConcreteModuleTypeData.mk p cs x ovs fls fns mods ik pc

def ConcreteModuleTypeData.setOverloads (d : ConcreteModuleTypeData) (x : List (String × List String)) : ConcreteModuleTypeData :=
  match d with
  | ConcreteModuleTypeData.mk p cs ats _ fls fns mods ik pc =>
    ConcreteModuleTypeData.mk p cs ats x fls fns mods ik pc

def ConcreteModuleTypeData.setFailedAttributes (d : ConcreteModuleTypeData) (x : List (String × String)) : ConcreteModuleTypeData :=
  match d with
  | ConcreteModuleTypeData.mk p cs ats ovs _ fns mods ik pc =>
    ConcreteModuleTypeData.mk p cs ats ovs x fns mods ik pc

def ConcreteModuleTypeData.setFunctionAttributes (d : ConcreteModuleTypeData) (x : List (String × FunctionAttribute)) : ConcreteModuleTypeData :=
  match d with
  | ConcreteModuleTypeData.mk p cs ats ovs fls _ mods ik pc =>
    ConcreteModuleTypeData.mk p cs ats ovs fls x mods ik pc

def ConcreteModuleTypeData.setModules (d : ConcreteModuleTypeData) (x : List ModuleInfo) : ConcreteModuleTypeData :=
  match d with
  | ConcreteModuleTypeData.mk p cs ats ovs fls fns _ ik pc =>
    ConcreteModuleTypeData.mk p cs ats ovs fls fns x ik pc

def ConcreteModuleTypeData.setIterableModuleKind (d : ConcreteModuleTypeData) (x : IterableModuleKind) : ConcreteModuleTypeData :=
  match d with
  | ConcreteModuleTypeData.mk p cs ats ovs fls fns mods _ pc =>
    ConcreteModuleTypeData.mk p cs ats ovs fls fns mods x pc

/-! ### RawConcreteModuleType (the builder) -/

/-- RawConcreteModuleType: the mutable creation-phase wrapper around the
shared data. -/
structure RawConcreteModuleType where
  data : ConcreteModuleTypeData

namespace RawConcreteModuleType

/-- The RawConcreteModuleType constructor: fresh data holding only the
originating Python class. -/
def create (pyClass : PyObjId) : RawConcreteModuleType :=
  ⟨ConcreteModuleTypeData.mk false [] [] [] [] [] [] IterableModuleKind.NONE pyClass⟩

def addConstant (r : RawConcreteModuleType) (name : String) (value : PyObjId) : RawConcreteModuleType :=
  ⟨r.data.setConstants (emplace r.data.constants name ⟨value⟩)⟩

/-- Modelled from the spec: unshapedType (defined outside this repository)
maps a Type to its shape-erased form; the spec treats attribute Types as an
opaque comparable abstraction, so the erasure is the identity here. -/
def unshapedType (t : JitType) : JitType := t

/-- addAttribute: TORCH_INTERNAL_ASSERT rejects a function type (none =
assertion failure aborting the build); otherwise emplace the attribute. -/
def addAttribute (r : RawConcreteModuleType) (name : String) (type : JitType) (isParameter : Bool) : Option RawConcreteModuleType :=
  if type.isFunctionType then none
  else some ⟨r.data.setAttributes
    (emplace r.data.attributes name ⟨unshapedType type, isParameter⟩)⟩

/-- addFunctionAttribute: type->expect<FunctionType>() throws unless the
type is a function type (none = thrown); otherwise emplace the entry. -/
def addFunctionAttribute (r : RawConcreteModuleType) (name : String) (type : JitType) (pyFunction : PyObjId) : Option RawConcreteModuleType :=
  match type with
  | JitType.function fid =>
    some ⟨r.data.setFunctionAttributes
      (emplace r.data.functionAttributes name ⟨fid, pyFunction⟩)⟩
  | _ => none

/-- addModule: always appends to the modules vector, preserving insertion
order, with a nested concrete type and no interface type. -/
def addModule (r : RawConcreteModuleType) (name : String) (meta : ConcreteModuleType) : RawConcreteModuleType :=
  ⟨r.data.setModules (r.data.modules ++ [ModuleInfo.mk name (some meta) none])⟩

/-- addModuleInterface: TORCH_INTERNAL_ASSERT requires an interface type
that is a module interface; appends an entry with a null meta. -/
def addModuleInterface (r : RawConcreteModuleType) (name : String) (type : JitType) : Option RawConcreteModuleType :=
  match type with
  | JitType.interface iid true =>
    some ⟨r.data.setModules
      (r.data.modules ++ [ModuleInfo.mk name none (some (JitType.interface iid true))])⟩
  | _ => none

def addOverload (r : RawConcreteModuleType) (methodName : String) (overloadedMethodNames : List String) : RawConcreteModuleType :=
  ⟨r.data.setOverloads (emplace r.data.overloads methodName overloadedMethodNames)⟩

def addFailedAttribute (r : RawConcreteModuleType) (name : String) (failureReason : String) : RawConcreteModuleType :=
  ⟨r.data.setFailedAttributes (emplace r.data.failedAttributes name failureReason)⟩

def setIterableModuleKind (r : RawConcreteModuleType) (kind : IterableModuleKind) : RawConcreteModuleType :=
  ⟨r.data.setIterableModuleKind kind⟩

def setPoisoned (r : RawConcreteModuleType) : RawConcreteModuleType :=
  ⟨r.data.setPoisoned⟩

/-- RawConcreteModuleType::equals(const RawConcreteModuleType&). -/
def equals (w : PyWorld) (a b : RawConcreteModuleType) : Except PyError Bool :=
  dataEq w a.data b.data

/-- RawConcreteModuleType::equals(const ConcreteModuleType&). -/
def equalsCMT (w : PyWorld) (a : RawConcreteModuleType) (b : ConcreteModuleType) : Except PyError Bool :=
  dataEq w a.data b.data

end RawConcreteModuleType

/-! ### ConcreteModuleType queries -/

def ConcreteModuleType.getPyClass (c : ConcreteModuleType) : PyObjId :=
  c.data.pyClass

def ConcreteModuleType.getIterableModuleKind (c : ConcreteModuleType) : IterableModuleKind :=
  c.data.iterableModuleKind

def ConcreteModuleType.findConstant (c : ConcreteModuleType) (name : String) : Option PyObjId :=
  (lookupKey c.data.constants name).map Constant.v

def ConcreteModuleType.findOverloads (c : ConcreteModuleType) (name : String) : Option (List String) :=
  lookupKey c.data.overloads name

def ConcreteModuleType.findFunctionAttribute (c : ConcreteModuleType) (name : String) : Option Nat :=
  (lookupKey c.data.functionAttributes name).map FunctionAttribute.function

def ConcreteModuleType.findFailedAttribute (c : ConcreteModuleType) (name : String) : Option String :=
  lookupKey c.data.failedAttributes name

/-- findSubmoduleConcreteType: find_if by entry name over the insertion
order, returning the (possibly null) nested concrete type pointer. -/
def ConcreteModuleType.findSubmoduleConcreteType (c : ConcreteModuleType) (name : String) : Option ConcreteModuleType :=
  (c.data.modules.find? (fun i => i.name == name)).bind ModuleInfo.meta

/-! ### Type registry and build (createTypeFromData) -/

/-- Modelled from the spec: a c10 QualifiedName as handled by the Type
Registry, split into a namespace part and a base name, plus the mangle
index appended by CompilationUnit::mangle on collision (none = unmangled). -/
structure QualifiedName where
  nsPart : String
  namePart : String
  mangleIdx : Option Nat
deriving DecidableEq, Repr

/-- The reference a compiled attribute slot holds: either the compiled
class type of a nested concrete type (by identity tag), a plain JIT type,
or null. -/
inductive TypeRef where
  | cls (id : Nat)
  | plain (t : JitType)
  | null
deriving DecidableEq, Repr

/-- ModuleInfo::getJitType: the nested type's computed JIT type when meta_
is non-null, else the stored interface type. -/
def ModuleInfo.getJitType : ModuleInfo → TypeRef
  | ModuleInfo.mk _ (some m) _ => TypeRef.cls m.jitType
  | ModuleInfo.mk _ none (some t) => TypeRef.plain t
  | ModuleInfo.mk _ none none => TypeRef.null

/-- A compiled class type: the identity tag of the freshly created ClassType
object, its registered qualified name, and the attribute slots populated
from the descriptor. -/
structure ClassTypeRec where
  clsId : Nat
  qualName : QualifiedName
  attrs : List (String × TypeRef × Bool)
deriving DecidableEq, Repr

/-- Modelled from the spec: the Type Registry (CompilationUnit) consumed by
build, whose get_class / mangle / register_type operations are defined
outside this repository.  It records registered types by qualified name,
allocates fresh mangle indices, and allocates fresh ClassType identities. -/
structure CompilationUnit where
  registered : List (QualifiedName × ClassTypeRec)
  nextMangleIdx : Nat
  nextClsId : Nat

/-- Modelled from the spec: CompilationUnit::get_class, canonical-name
lookup. -/
def CompilationUnit.getClass (cu : CompilationUnit) (n : QualifiedName) : Option ClassTypeRec :=
  (cu.registered.find? (fun e => e.1 == n)).map Prod.snd

/-- Modelled from the spec: CompilationUnit::mangle, producing a fresh
unique alternative for a taken name by stamping the next mangle index. -/
def CompilationUnit.mangle (cu : CompilationUnit) (n : QualifiedName) : QualifiedName × CompilationUnit :=
  (⟨n.nsPart, n.namePart, some cu.nextMangleIdx⟩,
   ⟨cu.registered, cu.nextMangleIdx + 1, cu.nextClsId⟩)

/-- The field population loop of createTypeFromData: attributes in map
order, then modules in insertion order. -/
def populateAttrs (d : ConcreteModuleTypeData) : List (String × TypeRef × Bool) :=
  d.attributes.map (fun pr => (pr.1, TypeRef.plain pr.2.type, pr.2.isParam))
    ++ d.modules.map (fun info => (info.name, info.getJitType, false))

/-- The canonical qualified name derived from the origin class: the Python
qualified name, falling back to the __torch__ namespace when its prefix is
empty. -/
def canonicalName (w : PyWorld) (pyClass : PyObjId) : QualifiedName :=
  if (w.qualNameOf pyClass).1 = "" then ⟨"__torch__", (w.qualNameOf pyClass).2, none⟩
  else ⟨(w.qualNameOf pyClass).1, (w.qualNameOf pyClass).2, none⟩

/-- createTypeFromData: derive the canonical name, mangle when the registry
already holds that name, create a fresh ClassType, register it, and
populate its fields from the descriptor. -/
def createTypeFromData (w : PyWorld) (cu : CompilationUnit) (d : ConcreteModuleTypeData) : ClassTypeRec × CompilationUnit :=
  let cn := canonicalName w d.pyClass
  let step :=
    if (cu.getClass cn).isSome then cu.mangle cn else (cn, cu)
  let cls : ClassTypeRec := ⟨step.2.nextClsId, step.1, populateAttrs d⟩
  (cls, ⟨(step.1, cls) :: step.2.registered, step.2.nextMangleIdx, step.2.nextClsId + 1⟩)

/-- RawConcreteModuleType::build composed with the ConcreteModuleType
constructor: the finalized type wraps the frozen data and owns the freshly
created compiled class type. -/
def RawConcreteModuleType.build (w : PyWorld) (cu : CompilationUnit) (r : RawConcreteModuleType) : (ConcreteModuleType × ClassTypeRec) × CompilationUnit :=
  let p := createTypeFromData w cu r.data
  ((ConcreteModuleType.mk r.data p.1.clsId, p.1), p.2)

/-! ### Helper lemmas -/

attribute [simp] ConcreteModuleTypeData.isPoisoned ConcreteModuleTypeData.constants
attribute [simp] ConcreteModuleTypeData.attributes ConcreteModuleTypeData.overloads
attribute [simp] ConcreteModuleTypeData.failedAttributes ConcreteModuleTypeData.functionAttributes
attribute [simp] ConcreteModuleTypeData.modules ConcreteModuleTypeData.iterableModuleKind
attribute [simp] ConcreteModuleTypeData.pyClass
attribute [simp] ModuleInfo.name ModuleInfo.meta ModuleInfo.type
attribute [simp] ConcreteModuleType.data ConcreteModuleType.jitType
attribute [simp] JitType.isFunctionType

theorem emplace_of_contains {α : Type} {m : List (String × α)} {k : String} (v : α)
    (h : containsKey m k = true) : emplace m k v = m := by
  simp [emplace, h]

theorem setConstants_self (d : ConcreteModuleTypeData) : d.setConstants d.constants = d := by
  cases d
  rfl

theorem setAttributes_self (d : ConcreteModuleTypeData) : d.setAttributes d.attributes = d := by
  cases d
  rfl

theorem setOverloads_self (d : ConcreteModuleTypeData) : d.setOverloads d.overloads = d := by
  cases d
  rfl

theorem setFailedAttributes_self (d : ConcreteModuleTypeData) : d.setFailedAttributes d.failedAttributes = d := by
  cases d
  rfl

theorem setFunctionAttributes_self (d : ConcreteModuleTypeData) : d.setFunctionAttributes d.functionAttributes = d := by
  cases d
  rfl

theorem modules_setModules (d : ConcreteModuleTypeData) (x : List ModuleInfo) :
    (d.setModules x).modules = x := by
  cases d
  rfl

/-! ### Concrete fixtures used by witnesses -/

/-- A Python runtime whose rich comparison always answers true. -/
def wTrue : PyWorld :=
  ⟨fun _ _ => some true, fun _ => ("", "")⟩

/-- A Python runtime whose rich comparison always raises. -/
def wRaise : PyWorld :=
  ⟨fun _ _ => none, fun _ => ("", "")⟩

/-- A freshly created builder, then poisoned. -/
def poisonedRaw : RawConcreteModuleType :=
  (RawConcreteModuleType.create 0).setPoisoned

/-- A small finalized type with jit identity 11. -/
def cmtZero : ConcreteModuleType :=
  ConcreteModuleType.mk (RawConcreteModuleType.create 1).data 11

/-- A descriptor holding one constant. -/
def oneConstData : ConcreteModuleTypeData :=
  ConcreteModuleTypeData.mk false [("k", ⟨1⟩)] [] [] [] [] [] IterableModuleKind.NONE 0

/-- A builder whose keyed maps each already hold the key "x". -/
def fullRaw : RawConcreteModuleType :=
  ⟨ConcreteModuleTypeData.mk false [("x", ⟨1⟩)] [("x", ⟨JitType.other 0, false⟩)]
    [("x", ["a"])] [("x", "why")] [("x", ⟨2, 3⟩)] [] IterableModuleKind.NONE 0⟩

/-- A nested finalized type with jit identity 7. -/
def nestedX : ConcreteModuleType :=
  ConcreteModuleType.mk
    (ConcreteModuleTypeData.mk false [] [] [] [] [] [] IterableModuleKind.NONE 1) 7

/-- A descriptor holding the single submodule entry ("a", nestedX). -/
def dModA : ConcreteModuleTypeData :=
  ConcreteModuleTypeData.mk false [] [] [] [] []
    [ModuleInfo.mk "a" (some nestedX) none] IterableModuleKind.NONE 0

/-- Identical to dModA except the submodule is named "b". -/
def dModB : ConcreteModuleTypeData :=
  ConcreteModuleTypeData.mk false [] [] [] [] []
    [ModuleInfo.mk "b" (some nestedX) none] IterableModuleKind.NONE 0

/-- A second nested finalized type with jit identity 12. -/
def nestedY : ConcreteModuleType :=
  ConcreteModuleType.mk
    (ConcreteModuleTypeData.mk false [] [] [] [] [] [] IterableModuleKind.NONE 2) 12

/-- Submodules inserted as [(a, X), (b, Y)]. -/
def modsAB : List ModuleInfo :=
  [ModuleInfo.mk "a" (some nestedX) none, ModuleInfo.mk "b" (some nestedY) none]

/-- The same submodules inserted as [(b, Y), (a, X)]. -/
def modsBA : List ModuleInfo :=
  [ModuleInfo.mk "b" (some nestedY) none, ModuleInfo.mk "a" (some nestedX) none]

/-! ### Claims -/

theorem dataEq_poisoned_left (w : PyWorld) (a b : ConcreteModuleTypeData)
    (h : a.isPoisoned = true) : dataEq w a b = Except.ok false := by
  cases a with
  | mk p cs ats ovs fls fns mods ik pc =>
    simp at h
    subst h
    unfold dataEq
    simp

theorem dataEq_poisoned_right (w : PyWorld) (a b : ConcreteModuleTypeData)
    (h : b.isPoisoned = true) : dataEq w a b = Except.ok false := by
  cases b with
  | mk p cs ats ovs fls fns mods ik pc =>
    simp at h
    subst h
    unfold dataEq
    simp

/-- C2: a poisoned descriptor is unequal to everything under the
descriptor-level equality: D.equals(D) is false and D.equals(anything) is
false, in either argument position and also against a finalized type. -/
theorem poisoned_descriptor_equals_nothing (w : PyWorld) (r x : RawConcreteModuleType)
    (c : ConcreteModuleType) (h : r.data.isPoisoned = true) :
    RawConcreteModuleType.equals w r r = Except.ok false ∧
    RawConcreteModuleType.equals w r x = Except.ok false ∧
    RawConcreteModuleType.equals w x r = Except.ok false ∧
    RawConcreteModuleType.equalsCMT w r c = Except.ok false := by
  unfold RawConcreteModuleType.equals RawConcreteModuleType.equalsCMT
  exact ⟨dataEq_poisoned_left w _ _ h, dataEq_poisoned_left w _ _ h,
    dataEq_poisoned_right w _ _ h, dataEq_poisoned_left w _ _ h⟩

/-- Witness for C2 at a concrete poisoned builder. -/
theorem poisoned_descriptor_equals_nothing_witness :
    poisonedRaw.data.isPoisoned = true ∧
    RawConcreteModuleType.equals wTrue poisonedRaw poisonedRaw = Except.ok false :=
  ⟨rfl, (poisoned_descriptor_equals_nothing wTrue poisonedRaw poisonedRaw cmtZero rfl).1⟩

/-- C3: every non-poisoned finalized type equals itself, and whenever two
finalized types hold the identical computed JIT class type the comparison
short-circuits to equal for every Python runtime, so no constant
value-equality relation is consulted. -/
theorem finalized_reflexivity_and_jit_shortcut :
    (∀ (w : PyWorld) (T : ConcreteModuleType), T.data.isPoisoned = false →
      ConcreteModuleType.equals w T T = Except.ok true) ∧
    (∀ (w : PyWorld) (d1 d2 : ConcreteModuleTypeData) (j : Nat),
      ConcreteModuleType.equals w (ConcreteModuleType.mk d1 j) (ConcreteModuleType.mk d2 j) =
        Except.ok true) := by
  constructor
  · intro w T _h
    unfold ConcreteModuleType.equals
    simp
  · intro w d1 d2 j
    unfold ConcreteModuleType.equals
    simp

/-- Witness for C3 at a concrete finalized type, under the runtime whose
rich comparison always raises (showing it is never consulted). -/
theorem finalized_reflexivity_and_jit_shortcut_witness :
    cmtZero.data.isPoisoned = false ∧
    ConcreteModuleType.equals wRaise cmtZero cmtZero = Except.ok true :=
  ⟨rfl, finalized_reflexivity_and_jit_shortcut.1 wRaise cmtZero rfl⟩

/-- C4: when the comparison reaches the constants maps (neither side
poisoned, identical origin class and iterable kind) and the Python
value-equality relation raises, the raise propagates out of the
descriptor comparison instead of any boolean result. -/
theorem constant_comparison_failure_propagates (w : PyWorld) (a b : ConcreteModuleTypeData)
    (hpa : a.isPoisoned = false) (hpb : b.isPoisoned = false)
    (hpc : a.pyClass = b.pyClass) (hik : a.iterableModuleKind = b.iterableModuleKind)
    (hc : constantsMapEq w a.constants b.constants = Except.error PyError.raised) :
    dataEq w a b = Except.error PyError.raised := by
  cases a with
  | mk p1 cs1 ats1 ovs1 fls1 fns1 mods1 ik1 pc1 =>
    cases b with
    | mk p2 cs2 ats2 ovs2 fls2 fns2 mods2 ik2 pc2 =>
      simp at hpa hpb hpc hik hc
      subst hpa
      subst hpb
      subst hpc
      subst hik
      unfold dataEq
      simp [hc]

/-- Witness for C4: a one-constant descriptor compared against itself under
the always-raising runtime. -/
theorem constant_comparison_failure_propagates_witness :
    constantsMapEq wRaise oneConstData.constants oneConstData.constants =
      Except.error PyError.raised ∧
    dataEq wRaise oneConstData oneConstData = Except.error PyError.raised :=
  ⟨rfl, constant_comparison_failure_propagates wRaise oneConstData oneConstData rfl rfl rfl rfl rfl⟩

/-- C5: function-attribute equality is identity on the Python function
handle: two descriptors agreeing on everything else but holding distinct
handles under one name compare unequal, while entries with the identical
handle compare equal whatever function types they store. -/
theorem function_attribute_identity_equality (w : PyWorld)
    (cs : List (String × Constant)) (ats : List (String × Attribute))
    (ovs : List (String × List String)) (fls : List (String × String))
    (fns : List (String × FunctionAttribute)) (mods : List ModuleInfo)
    (ik : IterableModuleKind) (pc : PyObjId) (n : String)
    (t1 t2 : Nat) (h1 h2 : PyObjId)
    (hc : constantsMapEq w cs cs = Except.ok true)
    (hne : h1 ≠ h2) :
    dataEq w
      (ConcreteModuleTypeData.mk false cs ats ovs fls ((n, ⟨t1, h1⟩) :: fns) mods ik pc)
      (ConcreteModuleTypeData.mk false cs ats ovs fls ((n, ⟨t2, h2⟩) :: fns) mods ik pc)
      = Except.ok false ∧
    (∀ (ta tb : Nat) (hf : PyObjId), funcAttrEqB ⟨ta, hf⟩ ⟨tb, hf⟩ = true) := by
  constructor
  · have hb : (h1 == h2) = false := by
      simp [hne]
    unfold dataEq
    simp [hc, mapEqB, lookupKey, funcAttrEqB, hb]
  · intro ta tb hf
    simp [funcAttrEqB]

/-- Witness for C5 at concrete inputs. -/
theorem function_attribute_identity_equality_witness :
    dataEq wTrue
      (ConcreteModuleTypeData.mk false [] [] [] [] [("f", ⟨1, 5⟩)] [] IterableModuleKind.NONE 0)
      (ConcreteModuleTypeData.mk false [] [] [] [] [("f", ⟨1, 6⟩)] [] IterableModuleKind.NONE 0)
      = Except.ok false ∧
    funcAttrEqB ⟨1, 5⟩ ⟨2, 5⟩ = true := by
  have h := function_attribute_identity_equality wTrue [] [] [] [] [] []
    IterableModuleKind.NONE 0 "f" 1 1 5 6 rfl (by decide)
  exact ⟨h.1, h.2 1 2 5⟩

/-- C6: addAttribute fatally rejects function types and records every
non-function type, while addFunctionAttribute accepts exactly the function
types. -/
theorem addAttribute_rejects_function_types (r : RawConcreteModuleType) (n : String)
    (t : JitType) (ip : Bool) (fid : Nat) (pyf : PyObjId) :
    (t.isFunctionType = true → r.addAttribute n t ip = none) ∧
    (t.isFunctionType = false →
      r.addAttribute n t ip = some ⟨r.data.setAttributes
        (emplace r.data.attributes n ⟨RawConcreteModuleType.unshapedType t, ip⟩)⟩) ∧
    (r.addFunctionAttribute n (JitType.function fid) pyf).isSome = true ∧
    (t.isFunctionType = false → r.addFunctionAttribute n t pyf = none) := by
  refine ⟨?_, ?_, ?_, ?_⟩
  · intro h
    cases t <;> simp_all [RawConcreteModuleType.addAttribute]
  · intro h
    cases t <;> simp_all [RawConcreteModuleType.addAttribute, RawConcreteModuleType.unshapedType]
  · unfold RawConcreteModuleType.addFunctionAttribute
    simp
  · intro h
    cases t <;> simp_all [RawConcreteModuleType.addFunctionAttribute]

/-- Witness for C6 at a concrete builder and types. -/
theorem addAttribute_rejects_function_types_witness :
    (RawConcreteModuleType.create 0).addAttribute "w" (JitType.function 3) false = none ∧
    ((RawConcreteModuleType.create 0).addAttribute "w" (JitType.other 4) true).isSome = true := by
  have h := addAttribute_rejects_function_types (RawConcreteModuleType.create 0) "w"
    (JitType.function 3) false 3 9
  have h2 := addAttribute_rejects_function_types (RawConcreteModuleType.create 0) "w"
    (JitType.other 4) true 3 9
  exact ⟨h.1 rfl, by rw [h2.2.1 rfl] ; rfl⟩

/-- C9: the failedAttributes maps never influence the descriptor equality:
replacing them on both sides with anything leaves the comparison result
unchanged, even though they are queryable through findFailedAttribute. -/
theorem failed_attributes_never_influence_equality (w : PyWorld)
    (p1 p2 : Bool) (cs1 cs2 : List (String × Constant))
    (ats1 ats2 : List (String × Attribute)) (ovs1 ovs2 : List (String × List String))
    (flsA flsB flsC flsD : List (String × String))
    (fns1 fns2 : List (String × FunctionAttribute)) (mods1 mods2 : List ModuleInfo)
    (ik1 ik2 : IterableModuleKind) (pc1 pc2 : PyObjId) (j : Nat) (nm : String) :
    dataEq w (ConcreteModuleTypeData.mk p1 cs1 ats1 ovs1 flsA fns1 mods1 ik1 pc1)
             (ConcreteModuleTypeData.mk p2 cs2 ats2 ovs2 flsB fns2 mods2 ik2 pc2)
      = dataEq w (ConcreteModuleTypeData.mk p1 cs1 ats1 ovs1 flsC fns1 mods1 ik1 pc1)
                 (ConcreteModuleTypeData.mk p2 cs2 ats2 ovs2 flsD fns2 mods2 ik2 pc2) ∧
    ConcreteModuleType.findFailedAttribute
        (ConcreteModuleType.mk (ConcreteModuleTypeData.mk p1 cs1 ats1 ovs1 flsA fns1 mods1 ik1 pc1) j) nm
      = lookupKey flsA nm := by
  constructor
  · unfold dataEq
    rfl
  · simp [ConcreteModuleType.findFailedAttribute]

/-- C10: for every keyed member category a second insertion under an
existing name is silently dropped, while addModule always appends. -/
theorem first_write_wins (r : RawConcreteModuleType) (n : String) (v : PyObjId)
    (t : JitType) (ip : Bool) (fid : Nat) (pyf : PyObjId) (m : ConcreteModuleType)
    (ovn : List String) (reason : String) :
    (containsKey r.data.constants n = true → r.addConstant n v = r) ∧
    (containsKey r.data.attributes n = true → t.isFunctionType = false →
      r.addAttribute n t ip = some r) ∧
    (containsKey r.data.functionAttributes n = true →
      r.addFunctionAttribute n (JitType.function fid) pyf = some r) ∧
    (containsKey r.data.overloads n = true → r.addOverload n ovn = r) ∧
    (containsKey r.data.failedAttributes n = true → r.addFailedAttribute n reason = r) ∧
    (r.addModule n m).data.modules = r.data.modules ++ [ModuleInfo.mk n (some m) none] := by
  refine ⟨?_, ?_, ?_, ?_, ?_, ?_⟩
  · intro h
    unfold RawConcreteModuleType.addConstant
    rw [emplace_of_contains _ h, setConstants_self]
  · intro h hf
    cases t with
    | function f2 => simp at hf
    | interface iid im =>
      unfold RawConcreteModuleType.addAttribute
      rw [if_neg (by simp), emplace_of_contains _ h, setAttributes_self]
    | other tid =>
      unfold RawConcreteModuleType.addAttribute
      rw [if_neg (by simp), emplace_of_contains _ h, setAttributes_self]
  · intro h
    show some (RawConcreteModuleType.mk (r.data.setFunctionAttributes
      (emplace r.data.functionAttributes n ⟨fid, pyf⟩))) = some r
    rw [emplace_of_contains _ h, setFunctionAttributes_self]
  · intro h
    unfold RawConcreteModuleType.addOverload
    rw [emplace_of_contains _ h, setOverloads_self]
  · intro h
    unfold RawConcreteModuleType.addFailedAttribute
    rw [emplace_of_contains _ h, setFailedAttributes_self]
  · unfold RawConcreteModuleType.addModule
    rw [modules_setModules]

instance : IsTotal ModuleInfo (fun a b => a.name ≤ b.name) :=
  ⟨fun a b => le_total a.name b.name⟩

instance : IsTrans ModuleInfo (fun a b => a.name ≤ b.name) :=
  ⟨fun _ _ _ hab hbc => le_trans hab hbc⟩

instance : IsAntisymm ModuleInfo (fun a b => a.name < b.name) :=
  ⟨fun _ _ hab hba => absurd (lt_trans hab hba) (lt_irrefl _)⟩

theorem sortModules_sorted (ms : List ModuleInfo) :
    List.Sorted (fun a b : ModuleInfo => a.name ≤ b.name) (sortModules ms) :=
  List.sorted_insertionSort _ ms

theorem sorted_strict_of_nodup_names {ms : List ModuleInfo}
    (hs : List.Sorted (fun a b : ModuleInfo => a.name ≤ b.name) ms)
    (hnd : (ms.map ModuleInfo.name).Nodup) :
    List.Pairwise (fun a b : ModuleInfo => a.name < b.name) ms := by
  have hne : List.Pairwise (fun a b : ModuleInfo => a.name ≠ b.name) ms :=
    List.pairwise_map.mp hnd
  exact (hs.and hne).imp (fun h => lt_of_le_of_ne h.1 h.2)

theorem sortModules_eq_of_perm {ms1 ms2 : List ModuleInfo}
    (hnd : (ms1.map ModuleInfo.name).Nodup) (hp : List.Perm ms2 ms1) :
    sortModules ms2 = sortModules ms1 := by
  have hperm : List.Perm (sortModules ms2) (sortModules ms1) :=
    ((sortModules_perm ms2).trans hp).trans (sortModules_perm ms1).symm
  have hnd1 : ((sortModules ms1).map ModuleInfo.name).Nodup :=
    (((sortModules_perm ms1).map ModuleInfo.name).nodup_iff).mpr hnd
  have hnd2 : ((sortModules ms2).map ModuleInfo.name).Nodup :=
    ((((sortModules_perm ms2).trans hp).map ModuleInfo.name).nodup_iff).mpr hnd
  exact List.eq_of_perm_of_sorted hperm
    (sorted_strict_of_nodup_names (sortModules_sorted ms2) hnd2)
    (sorted_strict_of_nodup_names (sortModules_sorted ms1) hnd1)

theorem moduleInfoEq_self (w : PyWorld) (x : ModuleInfo)
    (hx : (x.meta.isSome || x.type.isSome) = true) :
    moduleInfoEq w x x = Except.ok true := by
  cases x with
  | mk n mm tt =>
    cases mm with
    | some m =>
      have h1 : moduleInfoEq w (ModuleInfo.mk n (some m) tt) (ModuleInfo.mk n (some m) tt)
          = ConcreteModuleType.equals w m m := by
        simp [moduleInfoEq]
      rw [h1]
      unfold ConcreteModuleType.equals
      simp
    | none =>
      cases tt with
      | some t => simp [moduleInfoEq]
      | none => simp at hx

theorem modulesEqGo_self (w : PyWorld) (xs : List ModuleInfo)
    (h : ∀ x ∈ xs, (x.meta.isSome || x.type.isSome) = true) :
    modulesEqGo w xs xs = Except.ok true := by
  induction xs with
  | nil => simp [modulesEqGo]
  | cons x xs2 ih =>
    have hx := h x (by simp)
    have hxs : ∀ y ∈ xs2, (y.meta.isSome || y.type.isSome) = true :=
      fun y hy => h y (by simp [hy])
    simp [modulesEqGo, moduleInfoEq_self w x hx, ih hxs]

theorem modulesEq_self (w : PyWorld) (xs : List ModuleInfo)
    (h : ∀ x ∈ xs, (x.meta.isSome || x.type.isSome) = true) :
    modulesEq w xs xs = Except.ok true := by
  unfold modulesEq
  simp [modulesEqGo_self w xs h]

/-- C1 (code defect): operator==(ModuleInfo, ModuleInfo) never consults the
name field, so two descriptors identical except for the name of their one
submodule entry compare equal, although only one of the two resolves that
name through findSubmoduleConcreteType. -/
theorem submodule_name_mismatch_still_equal :
    dataEq wTrue dModA dModB = Except.ok true ∧
    ConcreteModuleType.findSubmoduleConcreteType (ConcreteModuleType.mk dModA 8) "a"
      = some nestedX ∧
    ConcreteModuleType.findSubmoduleConcreteType (ConcreteModuleType.mk dModB 9) "a"
      = none := by
  refine ⟨?_, ?_, ?_⟩
  · simp [dModA, dModB, nestedX, wTrue, dataEq, constantsMapEq, constantsMapEqGo, mapEqB,
      sortModules, List.insertionSort, List.orderedInsert, modulesEq, modulesEqGo,
      moduleInfoEq, ConcreteModuleType.equals]
  · simp [ConcreteModuleType.findSubmoduleConcreteType, dModA, nestedX, List.find?]
  · simp [ConcreteModuleType.findSubmoduleConcreteType, dModB, nestedX, List.find?]

/-- C7: submodule insertion order never discriminates: two descriptors
identical except that one's modules sequence is a permutation of the
other's (under pairwise distinct submodule names, and with each entry and
the remaining fields self-comparable) compare equal; the comparison sorts
copies, the descriptors themselves being values. -/
theorem submodule_insertion_order_irrelevant (w : PyWorld)
    (cs : List (String × Constant)) (ats : List (String × Attribute))
    (ovs : List (String × List String)) (fls : List (String × String))
    (fns : List (String × FunctionAttribute)) (mods1 mods2 : List ModuleInfo)
    (ik : IterableModuleKind) (pc : PyObjId)
    (hc : constantsMapEq w cs cs = Except.ok true)
    (hats : mapEqB attrEqB ats ats = true)
    (hovs : mapEqB overloadEqB ovs ovs = true)
    (hfns : mapEqB funcAttrEqB fns fns = true)
    (hperm : List.Perm mods2 mods1)
    (hnd : (mods1.map ModuleInfo.name).Nodup)
    (hwf : ∀ x ∈ mods1, (x.meta.isSome || x.type.isSome) = true) :
    dataEq w (ConcreteModuleTypeData.mk false cs ats ovs fls fns mods1 ik pc)
             (ConcreteModuleTypeData.mk false cs ats ovs fls fns mods2 ik pc)
      = Except.ok true := by
  unfold dataEq
  simp [hc, hats, hovs, hfns]
  rw [sortModules_eq_of_perm hnd hperm]
  exact modulesEq_self w (sortModules mods1)
    (fun x hx => hwf x ((sortModules_perm mods1).mem_iff.mp hx))

/-- Witness for C7 at the two-submodule example of the specification. -/
theorem submodule_insertion_order_irrelevant_witness :
    List.Perm modsBA modsAB ∧
    dataEq wTrue
      (ConcreteModuleTypeData.mk false [] [] [] [] [] modsAB IterableModuleKind.NONE 0)
      (ConcreteModuleTypeData.mk false [] [] [] [] [] modsBA IterableModuleKind.NONE 0)
      = Except.ok true := by
  have hp : List.Perm modsBA modsAB := List.Perm.swap _ _ _
  exact ⟨hp, submodule_insertion_order_irrelevant wTrue [] [] [] [] [] modsAB modsBA
    IterableModuleKind.NONE 0 rfl rfl rfl rfl hp (by decide) (by decide)⟩

theorem canonicalName_mangleIdx (w : PyWorld) (pc : PyObjId) :
    (canonicalName w pc).mangleIdx = none := by
  unfold canonicalName
  split <;> rfl

/-- C8: build derives the canonical qualified name (default namespace on an
empty prefix), mangles when the registry already holds the name, and
registers the fresh compiled class type under the resolved name; hence two
successive builds whose descriptors canonicalize to the same qualified name
register distinct names and own distinct compiled class types. -/
theorem build_mangles_on_collision (w : PyWorld) (cu : CompilationUnit)
    (r1 r2 : RawConcreteModuleType) (T1 T2 : ConcreteModuleType) (c1 c2 : ClassTypeRec)
    (cu1 cu2 : CompilationUnit)
    (hsame : canonicalName w r2.data.pyClass = canonicalName w r1.data.pyClass)
    (hb1 : RawConcreteModuleType.build w cu r1 = ((T1, c1), cu1))
    (hb2 : RawConcreteModuleType.build w cu1 r2 = ((T2, c2), cu2)) :
    c1.qualName ≠ c2.qualName ∧
    c1.clsId ≠ c2.clsId ∧
    T1.jitType ≠ T2.jitType ∧
    (c1.qualName, c1) ∈ cu1.registered ∧
    (c2.qualName, c2) ∈ cu2.registered ∧
    c1.qualName.nsPart = (canonicalName w r1.data.pyClass).nsPart ∧
    c1.qualName.namePart = (canonicalName w r1.data.pyClass).namePart ∧
    c2.qualName.nsPart = (canonicalName w r1.data.pyClass).nsPart ∧
    c2.qualName.namePart = (canonicalName w r1.data.pyClass).namePart := by
  obtain ⟨d1⟩ := r1
  obtain ⟨d2⟩ := r2
  obtain ⟨p1, cs1, ats1, ovs1, fls1, fns1, mods1, ik1, pc1⟩ := d1
  obtain ⟨p2, cs2, ats2, ovs2, fls2, fns2, mods2, ik2, pc2⟩ := d2
  obtain ⟨reg, nmi, nci⟩ := cu
  simp only [RawConcreteModuleType.data, ConcreteModuleTypeData.pyClass] at hsame ⊢
  unfold RawConcreteModuleType.build createTypeFromData at hb1 hb2
  simp only [RawConcreteModuleType.data, ConcreteModuleTypeData.pyClass] at hb1 hb2
  rw [hsame] at hb2
  cases hg : CompilationUnit.getClass ⟨reg, nmi, nci⟩ (canonicalName w pc1) with
  | none =>
    rw [hg] at hb1
    simp [CompilationUnit.mangle] at hb1
    obtain ⟨⟨hT1, hc1⟩, hcu1⟩ := hb1
    subst hT1
    subst hc1
    subst hcu1
    rw [show CompilationUnit.getClass
        ⟨(canonicalName w pc1,
          ⟨nci, canonicalName w pc1,
            populateAttrs (ConcreteModuleTypeData.mk p1 cs1 ats1 ovs1 fls1 fns1 mods1 ik1 pc1)⟩) :: reg,
          nmi, nci + 1⟩ (canonicalName w pc1)
        = some ⟨nci, canonicalName w pc1,
            populateAttrs (ConcreteModuleTypeData.mk p1 cs1 ats1 ovs1 fls1 fns1 mods1 ik1 pc1)⟩
      from by simp [CompilationUnit.getClass, List.find?]] at hb2
    simp [CompilationUnit.mangle] at hb2
    obtain ⟨⟨hT2, hc2⟩, hcu2⟩ := hb2
    subst hT2
    subst hc2
    subst hcu2
    refine ⟨?_, by simp, by simp, by simp, by simp, rfl, rfl, rfl, rfl⟩
    intro h
    have hm := congrArg QualifiedName.mangleIdx h
    rw [canonicalName_mangleIdx] at hm
    simp at hm
  | some c0 =>
    rw [hg] at hb1
    simp [CompilationUnit.mangle] at hb1
    obtain ⟨⟨hT1, hc1⟩, hcu1⟩ := hb1
    subst hT1
    subst hc1
    subst hcu1
    have hne : (⟨(canonicalName w pc1).nsPart,
        (canonicalName w pc1).namePart, some nmi⟩ : QualifiedName)
        ≠ canonicalName w pc1 := by
      intro h
      have hm := congrArg QualifiedName.mangleIdx h
      rw [canonicalName_mangleIdx] at hm
      simp at hm
    have hgr : (reg.find? (fun e => e.1 == canonicalName w pc1)).map Prod.snd
        = some c0 := hg
    rw [show CompilationUnit.getClass
        ⟨(⟨(canonicalName w pc1).nsPart, (canonicalName w pc1).namePart, some nmi⟩,
          ⟨nci, ⟨(canonicalName w pc1).nsPart, (canonicalName w pc1).namePart, some nmi⟩,
            populateAttrs (ConcreteModuleTypeData.mk p1 cs1 ats1 ovs1 fls1 fns1 mods1 ik1 pc1)⟩) :: reg,
          nmi + 1, nci + 1⟩ (canonicalName w pc1)
        = some c0
      from by
        simp [CompilationUnit.getClass, List.find?, beq_eq_false_iff_ne.mpr hne]
        obtain ⟨⟨qa, ca⟩, ha, hfa⟩ := Option.map_eq_some'.mp hgr
        simp at hfa
        subst hfa
        exact ⟨qa, ha⟩] at hb2
    simp [CompilationUnit.mangle] at hb2
    obtain ⟨⟨hT2, hc2⟩, hcu2⟩ := hb2
    subst hT2
    subst hc2
    subst hcu2
    refine ⟨?_, by simp, by simp, by simp, by simp, rfl, rfl, rfl, rfl⟩
    intro h
    have hm := congrArg QualifiedName.mangleIdx h
    simp at hm

/-- A Python runtime in which every class has the prefix-less qualified
name "M". -/
def wQual : PyWorld :=
  ⟨fun _ _ => some true, fun _ => ("", "M")⟩

/-- The empty type registry. -/
def cuEmpty : CompilationUnit :=
  ⟨[], 0, 0⟩

/-- Witness for C8: two fresh builders over classes that both canonicalize
to __torch__.M, built in sequence against the empty registry. -/
theorem build_mangles_on_collision_witness :
    canonicalName wQual (RawConcreteModuleType.create 1).data.pyClass
      = canonicalName wQual (RawConcreteModuleType.create 0).data.pyClass ∧
    (⟨0, ⟨"__torch__", "M", none⟩, []⟩ : ClassTypeRec).qualName
      ≠ (⟨1, ⟨"__torch__", "M", some 0⟩, []⟩ : ClassTypeRec).qualName := by
  refine ⟨rfl, ?_⟩
  exact (build_mangles_on_collision wQual cuEmpty (RawConcreteModuleType.create 0)
    (RawConcreteModuleType.create 1)
    (ConcreteModuleType.mk (RawConcreteModuleType.create 0).data 0)
    (ConcreteModuleType.mk (RawConcreteModuleType.create 1).data 1)
    ⟨0, ⟨"__torch__", "M", none⟩, []⟩ ⟨1, ⟨"__torch__", "M", some 0⟩, []⟩
    ⟨[(⟨"__torch__", "M", none⟩, ⟨0, ⟨"__torch__", "M", none⟩, []⟩)], 0, 1⟩
    ⟨[(⟨"__torch__", "M", some 0⟩, ⟨1, ⟨"__torch__", "M", some 0⟩, []⟩),
      (⟨"__torch__", "M", none⟩, ⟨0, ⟨"__torch__", "M", none⟩, []⟩)], 1, 2⟩
    rfl rfl rfl).1

/-- Witness for C10 at a builder whose maps each already hold the key. -/
theorem first_write_wins_witness :
    containsKey fullRaw.data.constants "x" = true ∧
    fullRaw.addConstant "x" 99 = fullRaw ∧
    fullRaw.addOverload "x" ["zzz"] = fullRaw ∧
    (fullRaw.addModule "x" cmtZero).data.modules
      = fullRaw.data.modules ++ [ModuleInfo.mk "x" (some cmtZero) none] := by
  have h := first_write_wins fullRaw "x" 99 (JitType.other 4) true 3 9 cmtZero ["zzz"] "why"
  exact ⟨rfl, h.1 rfl, h.2.2.2.1 rfl, h.2.2.2.2.2⟩

end PytorchCMT

